import Mathlib

/-!
Verification of the C2 (command-and-control) pub/sub messaging layer in
`frontend/website/ghpcfe/cluster_manager/c2.py`.

The Python module is shallowly embedded: JSON bodies become association
lists over a small JSON value type, the module-level dictionaries
(`_c2_callbackMap`, `_c2_ackMap`) and the global `_c2State` become explicit
state threaded through the functions, and Python exceptions become an
explicit `PyResult` outcome.  Callback closures are abstracted by a type
parameter `κ` together with a behaviour function, and each embedded
function additionally returns the list of callback invocations and
published messages it performed, so that side effects are observable.
-/

set_option autoImplicit false
set_option linter.unusedVariables false

namespace C2

/-- A JSON scalar value, as found in decoded message bodies. -/
inductive JVal where
  | str (s : String)
  | num (n : Int)
  | jbool (b : Bool)
  | jnull
  deriving DecidableEq, Repr

/-- Python truthiness (`if not x`) restricted to the JSON scalars we model:
`None`, `""`, `0` and `False` are falsy. -/
def pyFalsy : JVal → Bool
  | .str s => s = ""
  | .num n => n = 0
  | .jbool b => !b
  | .jnull => true

/-- A Python exception class, distinguishing `KeyError` (which the source
catches in several places) from every other exception. -/
inductive PyExn where
  | keyError
  | otherError
  deriving DecidableEq, Repr

/-- Outcome of running a piece of Python code: a normal return value, or a
propagating exception. -/
inductive PyResult (α : Type) where
  | ok (a : α)
  | exn (e : PyExn)
  deriving DecidableEq, Repr

/-- A decoded JSON message body: a Python dict with string keys. -/
abbrev Body := List (String × JVal)

/-- `message.get(k, None)` on a decoded body. -/
def bodyGet (b : Body) (k : String) : Option JVal :=
  match b with
  | [] => none
  | (k', v) :: rest => if k' = k then some v else bodyGet rest k

/-- `message[k] = v` on a decoded body (replace if present, else append). -/
def bodySet (b : Body) (k : String) (v : JVal) : Body :=
  match b with
  | [] => [(k, v)]
  | (k', v') :: rest => if k' = k then (k, v) :: rest else (k', v') :: bodySet rest k v

/-- The `_c2_ackMap` correlation table: ackid value → registered response
callback.  Callbacks are abstracted by the type parameter `κ`. -/
abbrev AckMap (κ : Type) := List (JVal × κ)

/-- Dict lookup `m[k]` on the correlation table (as an `Option`). -/
def ackLookup {κ : Type} (m : AckMap κ) (k : JVal) : Option κ :=
  match m with
  | [] => none
  | (k', v) :: rest => if k' = k then some v else ackLookup rest k

/-- Dict deletion, the removal part of `m.pop(k)`. -/
def ackErase {κ : Type} (m : AckMap κ) (k : JVal) : AckMap κ :=
  m.filter (fun p => decide (p.1 ≠ k))

/-- Dict assignment `m[k] = v` on the correlation table. -/
def ackInsert {κ : Type} (m : AckMap κ) (k : JVal) (v : κ) : AckMap κ :=
  match m with
  | [] => [(k, v)]
  | (k', v') :: rest => if k' = k then (k, v) :: rest else (k', v') :: ackInsert rest k v

/-- Result of running `cb_ack` / `cb_update`: the Python return value (or
propagating exception), the correlation table afterwards, and the list of
response-callback invocations performed (callback, argument). -/
structure CBOut (κ : Type) where
  ret : PyResult Bool
  ackMap : AckMap κ
  invoked : List (κ × Body)
  deriving DecidableEq, Repr

/-- `cb_ack(message, source_id)` from c2.py.  Reads `ackid` from the body;
a missing or falsy ackid returns `True` untouched.  Otherwise
`_c2_ackMap.pop(ackid)` removes the correlation entry (a `KeyError` from a
missing entry is caught), and the callback is invoked with the full body;
a `KeyError` raised by the callback itself is caught by the same handler,
any other exception propagates.  `run` gives the behaviour of a callback
value. -/
def cb_ack {κ : Type} (run : κ → Body → PyResult Unit) (message : Body)
    (source_id : Option String) (ackMap : AckMap κ) : CBOut κ :=
  match bodyGet message "ackid" with
  | none => ⟨.ok true, ackMap, []⟩
  | some a =>
    if pyFalsy a then ⟨.ok true, ackMap, []⟩
    else
      match ackLookup ackMap a with
      | none => ⟨.ok true, ackMap, []⟩
      | some cb =>
        match run cb message with
        | .ok _ => ⟨.ok true, ackErase ackMap a, [(cb, message)]⟩
        | .exn .keyError => ⟨.ok true, ackErase ackMap a, [(cb, message)]⟩
        | .exn .otherError => ⟨.exn .otherError, ackErase ackMap a, [(cb, message)]⟩

/-- `cb_update(message, source_id)` from c2.py.  Identical to `cb_ack`
except the correlation entry is read (`_c2_ackMap[ackid]`), never
removed. -/
def cb_update {κ : Type} (run : κ → Body → PyResult Unit) (message : Body)
    (source_id : Option String) (ackMap : AckMap κ) : CBOut κ :=
  match bodyGet message "ackid" with
  | none => ⟨.ok true, ackMap, []⟩
  | some a =>
    if pyFalsy a then ⟨.ok true, ackMap, []⟩
    else
      match ackLookup ackMap a with
      | none => ⟨.ok true, ackMap, []⟩
      | some cb =>
        match run cb message with
        | .ok _ => ⟨.ok true, ackMap, [(cb, message)]⟩
        | .exn .keyError => ⟨.ok true, ackMap, [(cb, message)]⟩
        | .exn .otherError => ⟨.exn .otherError, ackMap, [(cb, message)]⟩

/-- String-to-string attribute map of a transport message
(`message.attributes`). -/
abbrev Attrs := List (String × String)

/-- `attributes.get(k, None)`. -/
def attrGet (attrs : Attrs) (k : String) : Option String :=
  match attrs with
  | [] => none
  | (k', v) :: rest => if k' = k then some v else attrGet rest k

/-- An inbound transport message as seen by the dispatcher: its attribute
map and its already-JSON-decoded data. -/
structure InMsg where
  attributes : Attrs
  data : Body
  deriving DecidableEq, Repr

/-- The `_c2_callbackMap` command registry: command name → handler.
Handlers are abstracted by the type parameter `κ`. -/
abbrev CmdMap (κ : Type) := List (String × κ)

/-- Dict lookup on the command registry. -/
def cmdLookup {κ : Type} (m : CmdMap κ) (k : String) : Option κ :=
  match m with
  | [] => none
  | (k', v) :: rest => if k' = k then some v else cmdLookup rest k

/-- `register_command(command_id, callback)` from c2.py: dict assignment
into `_c2_callbackMap` (overwrites an existing entry). -/
def register_command {κ : Type} (m : CmdMap κ) (command_id : String) (callback : κ) :
    CmdMap κ :=
  match m with
  | [] => [(command_id, callback)]
  | (k', v') :: rest =>
    if k' = command_id then (command_id, callback) :: rest
    else (k', v') :: register_command rest command_id callback

/-- What the dispatcher did with the transport message: acked it, nacked
it, or let an exception propagate out (neither ack nor nack issued). -/
inductive MsgFate where
  | ack
  | nack
  | raised (e : PyExn)
  deriving DecidableEq, Repr

/-- Result of `_c2_respCB`: the fate of the transport message and the list
of command-handler invocations performed (handler, body, source_id). -/
structure DispatchOut (κ : Type) where
  fate : MsgFate
  invoked : List (κ × Body × Option String)
  deriving DecidableEq, Repr

/-- `_c2_respCB(message)` from c2.py.  Resolves the `command` attribute in
`_c2_callbackMap` (a missing attribute or unknown command raises
`KeyError`, caught below), invokes the handler on the decoded body and the
`source` attribute, and acks on a truthy return, nacks on a falsy one.
The surrounding `try` catches only `KeyError` — including one raised by
the handler itself — and then falls through to `message.ack()`; any other
handler exception propagates out with neither ack nor nack.  `runH` gives
the behaviour of a handler value. -/
def _c2_respCB {κ : Type} (runH : κ → Body → Option String → PyResult Bool)
    (callbackMap : CmdMap κ) (message : InMsg) : DispatchOut κ :=
  let cmd := attrGet message.attributes "command"
  let source := attrGet message.attributes "source"
  match cmd with
  | none => ⟨.ack, []⟩
  | some c =>
    match cmdLookup callbackMap c with
    | none => ⟨.ack, []⟩
    | some callback =>
      match runH callback message.data source with
      | .ok true => ⟨.ack, [(callback, message.data, source)]⟩
      | .ok false => ⟨.nack, [(callback, message.data, source)]⟩
      | .exn .keyError => ⟨.ack, [(callback, message.data, source)]⟩
      | .exn .otherError => ⟨.raised .otherError, [(callback, message.data, source)]⟩

/-- A message published to the topic: topic path, body (to be
JSON-encoded), `target` attribute and `command` attribute. -/
structure PubMsg where
  topic : String
  data : Body
  target : Option String
  command : String
  deriving DecidableEq, Repr

/-- `_C2State.send_message(command, message, target)` from c2.py:
publishes the JSON-encoded body on the state's topic path with `target`
and `command` attributes. -/
def send_message (topic_path : String) (command : String) (message : Body)
    (target : Option String) : PubMsg :=
  ⟨topic_path, message, target, command⟩

/-- `get_cluster_sub_id(cluster_id)` from c2.py. -/
def get_cluster_sub_id (cluster_id : String) : String :=
  "cluster_" ++ cluster_id

/-- `c2_ping(message, source_id)` from c2.py: if the body has an `id` key,
replies with a `PONG` carrying that id, targeted at the sender; always
returns `True`.  Result: (return value, published messages). -/
def c2_ping (topic_path : String) (message : Body) (source_id : Option String) :
    Bool × List PubMsg :=
  match bodyGet message "id" with
  | some pid => (true, [send_message topic_path "PONG" [("id", pid)] source_id])
  | none => (true, [])

/-- Result of `send_command`: the caller's `data` dict after the call, the
correlation table after the call, the messages published, and the Python
return value (`data['ackid']`, which raises `KeyError` when absent). -/
structure SendCmdOut (κ : Type) where
  data : Body
  ackMap : AckMap κ
  published : List PubMsg
  ret : PyResult JVal
  deriving DecidableEq, Repr

/-- `send_command(cluster_id, cmd, data, onResponse)` from c2.py.  If
`onResponse` is supplied, writes a fresh uuid string into `data['ackid']`
and registers `onResponse` under it in `_c2_ackMap`.  Then publishes
`data` with the command and the cluster's target attribute, and returns
`data['ackid']` — which raises `KeyError` (after the publish) when
`onResponse` was not supplied and `data` had no `ackid` key.  The fresh
uuid is supplied as the `fresh` argument. -/
def send_command {κ : Type} (topic_path fresh : String) (cluster_id : String)
    (cmd : String) (data : Body) (onResponse : Option κ) (ackMap : AckMap κ) :
    SendCmdOut κ :=
  let st :=
    match onResponse with
    | some f => (bodySet data "ackid" (.str fresh), ackInsert ackMap (.str fresh) f)
    | none => (data, ackMap)
  let pub := send_message topic_path cmd st.1 (some (get_cluster_sub_id cluster_id))
  match bodyGet st.1 "ackid" with
  | some v => ⟨st.1, st.2, [pub], .ok v⟩
  | none => ⟨st.1, st.2, [pub], .exn .keyError⟩

/-- Result of `send_update`: the caller's `data` dict after the call and
the messages published. -/
structure SendUpdOut where
  data : Body
  published : List PubMsg
  deriving DecidableEq, Repr

/-- `send_update(cluster_id, comm_id, data)` from c2.py: writes the given
correlation id into `data['ackid']` and publishes `data` as an `UPDATE`
targeted at the cluster. -/
def send_update (topic_path : String) (cluster_id : String) (comm_id : JVal)
    (data : Body) : SendUpdOut :=
  let data' := bodySet data "ackid" comm_id
  ⟨data', [send_message topic_path "UPDATE" data' (some (get_cluster_sub_id cluster_id))]⟩

/-- The fully-qualified subscription path built by the pub/sub client's
`subscription_path(project, sub)` helper (external client library;
standard `projects/{p}/subscriptions/{s}` format). -/
def subscription_path (project_id sub : String) : String :=
  "projects/" ++ project_id ++ "/subscriptions/" ++ sub

/-- The fully-qualified topic path built by the pub/sub client's
`topic_path(project, topic)` helper (external client library; standard
`projects/{p}/topics/{t}` format). -/
def topic_path (project_id topic : String) : String :=
  "projects/" ++ project_id ++ "/topics/" ++ topic

/-- `_C2State.get_subscription_path(sub_id)` from c2.py: prefixes the
subscription id with the topic name and resolves the full path. -/
def get_subscription_path (project_id topic : String) (sub_id : String) : String :=
  subscription_path project_id (topic ++ "-" ++ sub_id)

/-- The filter expression built by `_C2State.get_or_create_subscription`:
`attributes.target="{sub_id}"` when `filter_target` is true, and
`NOT attributes:target` otherwise. -/
def subFilter (sub_id : String) (filter_target : Bool) : String :=
  if filter_target then "attributes.target=\"" ++ sub_id ++ "\""
  else "NOT attributes:target"

/-- The subscription-creation request assembled by
`_C2State.get_or_create_subscription`. -/
structure SubRequest where
  name : String
  topic : String
  filter : String
  deriving DecidableEq, Repr

/-- `_C2State.get_or_create_subscription(sub_id, filter_target)` from
c2.py: builds the creation request (an `AlreadyExists` from the transport
is swallowed) and returns the subscription path.  Result: (returned path,
creation request issued). -/
def get_or_create_subscription (project_id topic topicPath : String)
    (sub_id : String) (filter_target : Bool) : String × SubRequest :=
  let sub_path := get_subscription_path project_id topic sub_id
  (sub_path, ⟨sub_path, topicPath, subFilter sub_id filter_target⟩)

/-- Modelled from the spec: the external transport's attribute-filter
semantics, restricted to the two filter shapes this module ever creates.
Per the spec's Transport Adapter and Addressing sections, a subscription
whose filter is `attributes.target="X"` receives exactly the messages
whose `target` attribute equals `X`, and a subscription whose filter is
`NOT attributes:target` receives exactly the messages with no `target`
attribute.  The evaluator itself (pub/sub filter language) is not
repository code. -/
def filterMatches (f : String) (attrs : Attrs) : Bool :=
  match attrGet attrs "target" with
  | none => f = "NOT attributes:target"
  | some t => f = "attributes.target=\"" ++ t ++ "\""

/-- The `server` section of the loaded configuration
(`utils.load_config()`), as consumed by `_C2State.startup`. -/
structure Config where
  gcp_project : String
  c2_topic : String
  deriving DecidableEq, Repr

/-- The `_C2State` instance after its `startup()` method ran: the
configuration-derived fields, the subscription-creation requests issued,
and the subscription paths on which a streaming pull bound to
`_c2_respCB` was started. -/
structure C2StateRec where
  project_id : String
  topic : String
  topicPath : String
  created_subs : List SubRequest
  subscribed : List String
  deriving DecidableEq, Repr

/-- `_C2State.startup()` from c2.py: reads the configuration, builds the
topic path, idempotently creates the controller-side `c2resp`
subscription filtered to messages with no `target` attribute, and
subscribes the dispatcher to it. -/
def stateStartup (conf : Config) : C2StateRec :=
  let tp := topic_path conf.gcp_project conf.c2_topic
  let sub := get_or_create_subscription conf.gcp_project conf.c2_topic tp "c2resp" false
  ⟨conf.gcp_project, conf.c2_topic, tp, [sub.2], [sub.1]⟩

/-- The module-level mutable state of c2.py: the global `_c2State`
(`None` before startup) and the `_c2_callbackMap` command registry. -/
structure C2Global (κ : Type) where
  c2State : Option C2StateRec
  callbackMap : CmdMap κ
  deriving DecidableEq, Repr

/-- Result of the module-level `startup()`: the module state afterwards
and whether the double-startup error was logged. -/
structure StartupOut (κ : Type) where
  state : C2Global κ
  errorLogged : Bool
  deriving DecidableEq, Repr

/-- Module-level `startup()` from c2.py.  If `_c2State` is already set
(an instance is always truthy), logs an error and returns without any
other effect.  Otherwise creates and starts the `_C2State` and registers
the five built-in commands.  The handler values registered for
ACK/UPDATE/PING/PONG/CLUSTER_STATUS are passed in as `hAck` … `hStatus`. -/
def startup {κ : Type} (conf : Config) (hAck hUpd hPing hPong hStatus : κ)
    (g : C2Global κ) : StartupOut κ :=
  match g.c2State with
  | some _ => ⟨g, true⟩
  | none =>
    let st := stateStartup conf
    let cm := register_command (register_command (register_command
      (register_command (register_command g.callbackMap "ACK" hAck)
        "UPDATE" hUpd) "PING" hPing) "PONG" hPong) "CLUSTER_STATUS" hStatus
    ⟨⟨some st, cm⟩, false⟩

/-! ### Helper lemmas -/

theorem ackLookup_ackErase_self {κ : Type} (m : AckMap κ) (k : JVal) :
    ackLookup (ackErase m k) k = none := by
  induction m with
  | nil => rfl
  | cons p rest ih =>
    by_cases h : p.1 = k
    · simpa [ackErase, List.filter_cons, h] using ih
    · simpa [ackErase, List.filter_cons, h, ackLookup] using ih

theorem ackLookup_ackInsert_self {κ : Type} (m : AckMap κ) (k : JVal) (v : κ) :
    ackLookup (ackInsert m k v) k = some v := by
  induction m with
  | nil => simp [ackInsert, ackLookup]
  | cons p rest ih =>
    by_cases h : p.1 = k
    · simp [ackInsert, h, ackLookup]
    · simp [ackInsert, h, ackLookup, ih]

theorem bodyGet_bodySet_self (b : Body) (k : String) (v : JVal) :
    bodyGet (bodySet b k v) k = some v := by
  induction b with
  | nil => simp [bodySet, bodyGet]
  | cons p rest ih =>
    by_cases h : p.1 = k
    · simp [bodySet, h, bodyGet]
    · simp [bodySet, h, bodyGet, ih]

theorem cb_ack_found {κ : Type} (run : κ → Body → PyResult Unit) (m : Body)
    (s : Option String) (am : AckMap κ) (X : JVal) (cb : κ)
    (h1 : bodyGet m "ackid" = some X) (hf : pyFalsy X = false)
    (hl : ackLookup am X = some cb) :
    (cb_ack run m s am).ackMap = ackErase am X ∧
    (cb_ack run m s am).invoked = [(cb, m)] ∧
    (cb_ack run m s am).ret =
      (match run cb m with
        | .exn .otherError => PyResult.exn .otherError
        | _ => PyResult.ok true) := by
  cases hr : run cb m with
  | ok a => simp [cb_ack, h1, hf, hl, hr]
  | exn e => cases e <;> simp [cb_ack, h1, hf, hl, hr]

theorem cb_ack_notfound {κ : Type} (run : κ → Body → PyResult Unit) (m : Body)
    (s : Option String) (am : AckMap κ) (X : JVal)
    (h1 : bodyGet m "ackid" = some X) (hf : pyFalsy X = false)
    (hl : ackLookup am X = none) :
    cb_ack run m s am = ⟨.ok true, am, []⟩ := by
  simp [cb_ack, h1, hf, hl]

theorem cb_ack_falsy {κ : Type} (run : κ → Body → PyResult Unit) (m : Body)
    (s : Option String) (am : AckMap κ) (X : JVal)
    (h1 : bodyGet m "ackid" = some X) (hf : pyFalsy X = true) :
    cb_ack run m s am = ⟨.ok true, am, []⟩ := by
  simp [cb_ack, h1, hf]

/-! ### Claim theorems -/

/-- C3 counterexample.  The claim quantifies over *every* ACK message
carrying an ackid `X`; but `cb_ack` early-returns on a *falsy* ackid, so
for the message `{"ackid": ""}` with a correlation entry registered under
`""`, the entry is still in the table after dispatch and the handler was
never invoked — contradicting "the table contains no entry for X" and
"the handler was invoked exactly once". -/
theorem C3_ack_counterexample :
    ackLookup (cb_ack (fun (_ : Nat) (_ : Body) => PyResult.ok ())
        [("ackid", JVal.str "")] (some "cluster_1") [(JVal.str "", 0)]).ackMap
        (JVal.str "") = some 0 ∧
    (cb_ack (fun (_ : Nat) (_ : Body) => PyResult.ok ())
        [("ackid", JVal.str "")] (some "cluster_1") [(JVal.str "", 0)]).invoked = [] :=
  ⟨rfl, rfl⟩

/-- C3 (amended): for every ACK message carrying a *truthy* ackid `X`,
after dispatch the correlation table contains no entry for `X`, the
handler registered for `X` (if any existed) was invoked exactly once with
the full message body, and `cb_ack` returns `true` provided the invoked
handler did not raise a non-`KeyError` exception (such an exception
propagates out instead). -/
theorem C3_ack_amended {κ : Type} (run : κ → Body → PyResult Unit) (m : Body)
    (s : Option String) (am : AckMap κ) (X : JVal)
    (h1 : bodyGet m "ackid" = some X) (h2 : pyFalsy X = false) :
    ackLookup (cb_ack run m s am).ackMap X = none ∧
    (∀ cb, ackLookup am X = some cb → (cb_ack run m s am).invoked = [(cb, m)]) ∧
    (ackLookup am X = none → (cb_ack run m s am).invoked = []) ∧
    ((∀ cb, ackLookup am X = some cb → run cb m ≠ PyResult.exn .otherError) →
      (cb_ack run m s am).ret = PyResult.ok true) := by
  refine ⟨?_, ?_, ?_, ?_⟩
  · cases hl : ackLookup am X with
    | none => rw [cb_ack_notfound run m s am X h1 h2 hl]; exact hl
    | some cb =>
      rw [(cb_ack_found run m s am X cb h1 h2 hl).1]
      exact ackLookup_ackErase_self am X
  · intro cb hcb
    exact (cb_ack_found run m s am X cb h1 h2 hcb).2.1
  · intro hl
    rw [cb_ack_notfound run m s am X h1 h2 hl]
  · intro hno
    cases hl : ackLookup am X with
    | none => rw [cb_ack_notfound run m s am X h1 h2 hl]
    | some cb =>
      rw [(cb_ack_found run m s am X cb h1 h2 hl).2.2]
      cases hr : run cb m with
      | ok a => rfl
      | exn e =>
        cases e with
        | keyError => rfl
        | otherError => exact absurd hr (hno cb hl)

/-- C3 witness: a concrete truthy ACK for a registered entry. -/
theorem C3_ack_witness :
    ackLookup (cb_ack (fun (_ : Nat) (_ : Body) => PyResult.ok ())
        [("ackid", JVal.str "u1")] (some "cluster_1")
        [(JVal.str "u1", 7)]).ackMap (JVal.str "u1") = none ∧
    (cb_ack (fun (_ : Nat) (_ : Body) => PyResult.ok ())
        [("ackid", JVal.str "u1")] (some "cluster_1")
        [(JVal.str "u1", 7)]).invoked = [(7, [("ackid", JVal.str "u1")])] ∧
    (cb_ack (fun (_ : Nat) (_ : Body) => PyResult.ok ())
        [("ackid", JVal.str "u1")] (some "cluster_1")
        [(JVal.str "u1", 7)]).ret = PyResult.ok true := by
  obtain ⟨a, b, c, d⟩ := C3_ack_amended (fun (_ : Nat) (_ : Body) => PyResult.ok ())
    [("ackid", JVal.str "u1")] (some "cluster_1") [(JVal.str "u1", 7)]
    (JVal.str "u1") rfl rfl
  exact ⟨a, b 7 rfl, d (fun cb hcb => by simp [ackLookup] at hcb; subst hcb; simp)⟩

/-- C4 counterexample.  The claim says `cb_update` returns `true` in
every case; but a registered response callback that raises a
non-`KeyError` exception propagates it out of `cb_update` instead of
returning `true`. -/
theorem C4_update_counterexample :
    (cb_update (fun (_ : Nat) (_ : Body) => PyResult.exn .otherError)
        [("ackid", JVal.str "a")] (some "cluster_1")
        [(JVal.str "a", 0)]).ret = PyResult.exn .otherError := rfl

/-- C4 (amended): for every UPDATE message carrying ackid `X`, the
correlation table is left entirely unchanged (in particular any entry for
`X` survives), and `cb_update` returns `true` provided the invoked
handler did not raise a non-`KeyError` exception (such an exception
propagates out instead). -/
theorem C4_update_amended {κ : Type} (run : κ → Body → PyResult Unit) (m : Body)
    (s : Option String) (am : AckMap κ) (X : JVal)
    (h1 : bodyGet m "ackid" = some X) :
    (cb_update run m s am).ackMap = am ∧
    ((∀ cb, ackLookup am X = some cb → run cb m ≠ PyResult.exn .otherError) →
      (cb_update run m s am).ret = PyResult.ok true) := by
  by_cases hf : pyFalsy X
  · simp [cb_update, h1, hf]
  · rw [Bool.not_eq_true] at hf
    cases hl : ackLookup am X with
    | none => simp [cb_update, h1, hf, hl]
    | some cb =>
      cases hr : run cb m with
      | ok a => simp [cb_update, h1, hf, hl, hr]
      | exn e =>
        cases e with
        | keyError => simp [cb_update, h1, hf, hl, hr]
        | otherError =>
          refine ⟨by simp [cb_update, h1, hf, hl, hr], fun hno => absurd hr (hno cb rfl)⟩

/-- C4 witness: a concrete UPDATE for a registered entry; the entry
survives and `cb_update` returns `true`. -/
theorem C4_update_witness :
    (cb_update (fun (_ : Nat) (_ : Body) => PyResult.ok ())
        [("ackid", JVal.str "u2")] (some "cluster_2")
        [(JVal.str "u2", 9)]).ackMap = [(JVal.str "u2", 9)] ∧
    (cb_update (fun (_ : Nat) (_ : Body) => PyResult.ok ())
        [("ackid", JVal.str "u2")] (some "cluster_2")
        [(JVal.str "u2", 9)]).ret = PyResult.ok true := by
  obtain ⟨a, b⟩ := C4_update_amended (fun (_ : Nat) (_ : Body) => PyResult.ok ())
    [("ackid", JVal.str "u2")] (some "cluster_2") [(JVal.str "u2", 9)]
    (JVal.str "u2") rfl
  exact ⟨a, b (fun cb hcb => by simp)⟩

/-- C5 (confirmed): dispatching two ACK messages carrying the same ackid
`X` (the second against the table left by the first) invokes a
correlation handler at most once in total; the second `cb_ack` performs
no invocation and returns `true` without error. -/
theorem C5_ack_idempotent {κ : Type} (run : κ → Body → PyResult Unit)
    (m1 m2 : Body) (s1 s2 : Option String) (am : AckMap κ) (X : JVal)
    (h1 : bodyGet m1 "ackid" = some X) (h2 : bodyGet m2 "ackid" = some X) :
    ((cb_ack run m1 s1 am).invoked ++
      (cb_ack run m2 s2 (cb_ack run m1 s1 am).ackMap).invoked).length ≤ 1 ∧
    (cb_ack run m2 s2 (cb_ack run m1 s1 am).ackMap).ret = PyResult.ok true ∧
    (cb_ack run m2 s2 (cb_ack run m1 s1 am).ackMap).invoked = [] := by
  by_cases hf : pyFalsy X
  · rw [cb_ack_falsy run m1 s1 am X h1 hf]
    rw [cb_ack_falsy run m2 s2 am X h2 hf]
    simp
  · rw [Bool.not_eq_true] at hf
    cases hl : ackLookup am X with
    | none =>
      rw [cb_ack_notfound run m1 s1 am X h1 hf hl]
      rw [cb_ack_notfound run m2 s2 am X h2 hf hl]
      simp
    | some cb =>
      obtain ⟨ha, hb, _⟩ := cb_ack_found run m1 s1 am X cb h1 hf hl
      have hl2 : ackLookup (cb_ack run m1 s1 am).ackMap X = none := by
        rw [ha]; exact ackLookup_ackErase_self am X
      rw [cb_ack_notfound run m2 s2 _ X h2 hf hl2, hb]
      simp

/-- C5 witness: two concrete ACKs with the same ackid. -/
theorem C5_ack_idempotent_witness :
    ((cb_ack (fun (_ : Nat) (_ : Body) => PyResult.ok ())
        [("ackid", JVal.str "u3")] (some "cluster_1")
        [(JVal.str "u3", 3)]).invoked ++
      (cb_ack (fun (_ : Nat) (_ : Body) => PyResult.ok ())
        [("ackid", JVal.str "u3")] (some "cluster_1")
        (cb_ack (fun (_ : Nat) (_ : Body) => PyResult.ok ())
          [("ackid", JVal.str "u3")] (some "cluster_1")
          [(JVal.str "u3", 3)]).ackMap).invoked).length ≤ 1 ∧
    (cb_ack (fun (_ : Nat) (_ : Body) => PyResult.ok ())
        [("ackid", JVal.str "u3")] (some "cluster_1")
        (cb_ack (fun (_ : Nat) (_ : Body) => PyResult.ok ())
          [("ackid", JVal.str "u3")] (some "cluster_1")
          [(JVal.str "u3", 3)]).ackMap).ret = PyResult.ok true ∧
    (cb_ack (fun (_ : Nat) (_ : Body) => PyResult.ok ())
        [("ackid", JVal.str "u3")] (some "cluster_1")
        (cb_ack (fun (_ : Nat) (_ : Body) => PyResult.ok ())
          [("ackid", JVal.str "u3")] (some "cluster_1")
          [(JVal.str "u3", 3)]).ackMap).invoked = [] :=
  C5_ack_idempotent (fun (_ : Nat) (_ : Body) => PyResult.ok ())
    [("ackid", JVal.str "u3")] [("ackid", JVal.str "u3")]
    (some "cluster_1") (some "cluster_1") [(JVal.str "u3", 3)]
    (JVal.str "u3") rfl rfl

/-- C1 counterexample.  The claim says an uncaught fault from a resolved
handler makes the dispatcher nack the message.  In the code, a `KeyError`
raised by the handler is caught by the dispatcher's own
`except KeyError` and the message is *acked*; any other exception
propagates out of `_c2_respCB`, so the dispatcher issues neither ack nor
nack.  Here a registered `SYNC` handler (not ACK/UPDATE) raises in both
ways and the message is never nacked. -/
theorem C1_handler_fault_counterexample :
    _c2_respCB (fun (_ : Unit) (_ : Body) (_ : Option String) => PyResult.exn .keyError)
        [("SYNC", ())] ⟨[("command", "SYNC"), ("source", "cluster_1")], []⟩ =
      ⟨.ack, [((), [], some "cluster_1")]⟩ ∧
    _c2_respCB (fun (_ : Unit) (_ : Body) (_ : Option String) => PyResult.exn .otherError)
        [("SYNC", ())] ⟨[("command", "SYNC"), ("source", "cluster_1")], []⟩ =
      ⟨.raised .otherError, [((), [], some "cluster_1")]⟩ :=
  ⟨rfl, rfl⟩

/-- C1 (amended): when a resolved handler raises an uncaught fault, the
dispatcher never nacks: a `KeyError` is swallowed by the dispatcher's
unknown-command `except` clause and the message is acked, while any other
exception propagates out of the dispatcher with neither ack nor nack
issued. -/
theorem C1_handler_fault_amended {κ : Type}
    (runH : κ → Body → Option String → PyResult Bool) (cm : CmdMap κ)
    (msg : InMsg) (c : String) (h : κ) (e : PyExn)
    (hc : attrGet msg.attributes "command" = some c)
    (hh : cmdLookup cm c = some h)
    (hf : runH h msg.data (attrGet msg.attributes "source") = PyResult.exn e) :
    _c2_respCB runH cm msg =
      ⟨if e = .keyError then .ack else .raised .otherError,
       [(h, msg.data, attrGet msg.attributes "source")]⟩ := by
  cases e <;> simp [_c2_respCB, hc, hh, hf]

/-- C1 witness: a concrete handler raising `KeyError`; the message is
acked. -/
theorem C1_handler_fault_witness :
    _c2_respCB (fun (_ : Unit) (_ : Body) (_ : Option String) => PyResult.exn .keyError)
        [("SYNC2", ())] ⟨[("command", "SYNC2")], []⟩ = ⟨.ack, [((), [], none)]⟩ := by
  simpa using C1_handler_fault_amended
    (fun (_ : Unit) (_ : Body) (_ : Option String) => PyResult.exn .keyError)
    [("SYNC2", ())] ⟨[("command", "SYNC2")], []⟩ "SYNC2" () .keyError rfl rfl rfl

/-- C2 counterexample.  The claim says that without `onResponse`,
`send_command` still returns normally with a sentinel value.  In the code
it executes `return data['ackid']`, which raises `KeyError` when the
caller's `data` has no `ackid` key. -/
theorem C2_send_command_counterexample :
    (send_command "tp" "fresh-uuid" "7" "DEPLOY" [] (none : Option Nat) []).ret =
      PyResult.exn .keyError := rfl

/-- C2 (amended): if `onResponse` is supplied, a fresh correlation
identifier is generated, stored in the correlation table mapping to
`onResponse`, attached as `ackid` in the published body, and returned.
If `onResponse` is not supplied, the message is still published with
`data` unchanged, and `send_command` returns the pre-existing
`data['ackid']` value if there is one and raises `KeyError` (after the
publish) otherwise — there is no sentinel return. -/
theorem C2_send_command_amended {κ : Type} (tp fresh cid cmd : String)
    (data : Body) (am : AckMap κ) :
    (∀ f : κ,
      send_command tp fresh cid cmd data (some f) am =
        ⟨bodySet data "ackid" (.str fresh), ackInsert am (.str fresh) f,
         [send_message tp cmd (bodySet data "ackid" (.str fresh))
           (some (get_cluster_sub_id cid))],
         .ok (.str fresh)⟩ ∧
      ackLookup (send_command tp fresh cid cmd data (some f) am).ackMap
        (.str fresh) = some f) ∧
    (bodyGet data "ackid" = none →
      send_command tp fresh cid cmd data (none : Option κ) am =
        ⟨data, am, [send_message tp cmd data (some (get_cluster_sub_id cid))],
         .exn .keyError⟩) ∧
    (∀ v, bodyGet data "ackid" = some v →
      send_command tp fresh cid cmd data (none : Option κ) am =
        ⟨data, am, [send_message tp cmd data (some (get_cluster_sub_id cid))],
         .ok v⟩) := by
  refine ⟨fun f => ⟨?_, ?_⟩, fun h => ?_, fun v h => ?_⟩
  · simp [send_command, bodyGet_bodySet_self]
  · simp [send_command, bodyGet_bodySet_self, ackLookup_ackInsert_self]
  · simp [send_command, h]
  · simp [send_command, h]

/-- C2 witness: a concrete `send_command` with a response callback. -/
theorem C2_send_command_witness :
    send_command "tp" "u-77" "7" "DEPLOY" [("x", JVal.num 1)] (some 5)
        ([] : AckMap Nat) =
      ⟨[("x", JVal.num 1), ("ackid", JVal.str "u-77")],
       [(JVal.str "u-77", 5)],
       [⟨"tp", [("x", JVal.num 1), ("ackid", JVal.str "u-77")],
         some "cluster_7", "DEPLOY"⟩],
       PyResult.ok (JVal.str "u-77")⟩ := by
  simpa using
    ((C2_send_command_amended "tp" "u-77" "7" "DEPLOY" [("x", JVal.num 1)]
      ([] : AckMap Nat)).1 5).1

/-- C6 (confirmed): a message whose command attribute is absent, or whose
command resolves to nothing in the command registry, is acked by the
dispatcher and no handler is invoked (the `KeyError` from the registry
lookup is caught and the flow falls through to `message.ack()`). -/
theorem C6_unknown_command_acked {κ : Type}
    (runH : κ → Body → Option String → PyResult Bool) (cm : CmdMap κ)
    (msg : InMsg)
    (h : ∀ c, attrGet msg.attributes "command" = some c → cmdLookup cm c = none) :
    _c2_respCB runH cm msg = ⟨.ack, []⟩ := by
  cases hc : attrGet msg.attributes "command" with
  | none => simp [_c2_respCB, hc]
  | some c => simp [_c2_respCB, hc, h c hc]

/-- C6 witness: an unregistered command and a message with no command
attribute. -/
theorem C6_unknown_command_witness :
    _c2_respCB (fun (_ : Nat) (_ : Body) (_ : Option String) => PyResult.ok true)
        [("PING", 0)] ⟨[("command", "NOPE"), ("source", "cluster_1")], []⟩ =
      ⟨.ack, []⟩ ∧
    _c2_respCB (fun (_ : Nat) (_ : Body) (_ : Option String) => PyResult.ok true)
        [("PING", 0)] ⟨[("source", "cluster_1")], []⟩ = ⟨.ack, []⟩ :=
  ⟨C6_unknown_command_acked _ _ _ (fun c hc => by
      simp [attrGet] at hc; subst hc; rfl),
   C6_unknown_command_acked _ _ _ (fun c hc => by simp [attrGet] at hc)⟩

/-- C9 (confirmed): dispatching a PING whose body carries `id: 42` from
source `cluster_5` publishes exactly one message, with command `PONG`,
body `{id: 42}` and target `cluster_5`, and the handler returns `True`. -/
theorem C9_ping_pong (tp : String) (msg : Body)
    (h : bodyGet msg "id" = some (JVal.num 42)) :
    c2_ping tp msg (some "cluster_5") =
      (true, [⟨tp, [("id", JVal.num 42)], some "cluster_5", "PONG"⟩]) := by
  simp [c2_ping, h, send_message]

/-- C9 witness: the concrete body `{id: 42}`. -/
theorem C9_ping_pong_witness :
    c2_ping "tp" [("id", JVal.num 42)] (some "cluster_5") =
      (true, [⟨"tp", [("id", JVal.num 42)], some "cluster_5", "PONG"⟩]) :=
  C9_ping_pong "tp" [("id", JVal.num 42)] rfl

/-- C10 (confirmed): `send_command` with a response callback, and
`send_update` always, write the `ackid` key into the caller's `data`
dict (modelled by state passing: the `data` field of the result is the
caller's dictionary after the call), and the body published is exactly
that mutated dictionary. -/
theorem C10_ackid_mutation {κ : Type} (tp fresh cid cmd : String) (data : Body)
    (f : κ) (am : AckMap κ) (comm_id : JVal) :
    bodyGet (send_command tp fresh cid cmd data (some f) am).data "ackid" =
      some (.str fresh) ∧
    (send_command tp fresh cid cmd data (some f) am).published =
      [send_message tp cmd (send_command tp fresh cid cmd data (some f) am).data
        (some (get_cluster_sub_id cid))] ∧
    bodyGet (send_update tp cid comm_id data).data "ackid" = some comm_id ∧
    (send_update tp cid comm_id data).published =
      [send_message tp "UPDATE" (send_update tp cid comm_id data).data
        (some (get_cluster_sub_id cid))] := by
  refine ⟨?_, ?_, ?_, ?_⟩
  · simp [send_command, bodyGet_bodySet_self]
  · simp [send_command, bodyGet_bodySet_self]
  · simp [send_update, bodyGet_bodySet_self]
  · simp [send_update]

theorem eqFilter_inj (t e : String) :
    ("attributes.target=\"" ++ t ++ "\"" : String) =
      "attributes.target=\"" ++ e ++ "\"" ↔ t = e := by
  constructor
  · intro h
    have h2 := congrArg String.data h
    simp only [String.data_append] at h2
    exact String.ext (List.append_cancel_left (List.append_cancel_right h2))
  · intro h
    rw [h]

theorem eqFilter_ne_noTarget (t : String) :
    ("attributes.target=\"" ++ t ++ "\"" : String) ≠ "NOT attributes:target" := by
  intro h
  have h2 := congrArg String.data h
  simp only [String.data_append] at h2
  simp [String.data] at h2

/-- C7 (confirmed): for every endpoint identifier `e`, the filter built
with `filter_target=True` matches exactly the messages whose `target`
attribute equals `e`, and the filter built with `filter_target=False`
matches exactly the messages with no `target` attribute.  Consequently a
message with `target="cluster_3"` matches only `cluster_3`'s filtered
filter and a message without a target matches only the controller's
filter.  The filter-language semantics (`filterMatches`) is modelled from
the spec, the filter strings themselves come from the source. -/
theorem C7_subscription_filters (e : String) (attrs : Attrs) :
    (filterMatches (subFilter e true) attrs = true ↔
      attrGet attrs "target" = some e) ∧
    (filterMatches (subFilter e false) attrs = true ↔
      attrGet attrs "target" = none) := by
  cases h : attrGet attrs "target" with
  | none =>
    simp [filterMatches, subFilter, h, eqFilter_ne_noTarget e]
  | some t =>
    constructor
    · simp only [filterMatches, subFilter, h, if_true, decide_eq_true_eq,
        Option.some.injEq]
      rw [eqFilter_inj e t]
      exact eq_comm
    · simp only [filterMatches, subFilter, h, Bool.if_false_right,
        decide_eq_true_eq]
      constructor
      · intro hx
        exact absurd hx.symm (eqFilter_ne_noTarget t)
      · intro hx
        cases hx

/-- C7 witness: the concrete addressing scenario from the spec. -/
theorem C7_subscription_filters_witness :
    filterMatches (subFilter "cluster_3" true) [("target", "cluster_3")] = true ∧
    filterMatches (subFilter "cluster_3" false) [] = true :=
  ⟨(C7_subscription_filters "cluster_3" [("target", "cluster_3")]).1.mpr rfl,
   (C7_subscription_filters "cluster_3" []).2.mpr rfl⟩

/-- C8 (confirmed): calling the module-level `startup()` while
`_c2State` is already set logs an error and returns immediately: the
whole module state (the `_C2State` instance and the command registry) is
returned unchanged, so no subscription is created and no command is
re-registered. -/
theorem C8_double_startup {κ : Type} (conf : Config)
    (hAck hUpd hPing hPong hStatus : κ) (g : C2Global κ) (s : C2StateRec)
    (hs : g.c2State = some s) :
    startup conf hAck hUpd hPing hPong hStatus g = ⟨g, true⟩ := by
  simp [startup, hs]

/-- C8 witness: a concrete already-initialized module state. -/
theorem C8_double_startup_witness :
    startup ⟨"proj", "topic"⟩ 0 1 2 3 4
        ⟨some ⟨"proj", "topic", "tp", [], []⟩, [("PING", 2)]⟩ =
      ⟨⟨some ⟨"proj", "topic", "tp", [], []⟩, [("PING", 2)]⟩, true⟩ :=
  C8_double_startup ⟨"proj", "topic"⟩ 0 1 2 3 4
    ⟨some ⟨"proj", "topic", "tp", [], []⟩, [("PING", 2)]⟩
    ⟨"proj", "topic", "tp", [], []⟩ rfl

end C2
